import Mathlib

/-!
Shallow embedding of `src/findUnusedLambdas.py` (aws-find-unused-lambda-functions).

The program fetches the Lambda function inventory of a region, builds three
dependent Athena SQL statements (create table, add partition, usage query),
submits each and polls it to completion, and finally reconciles the usage
rows against the inventory to report the functions not invoked in the last
30 days.

External collaborators (the Lambda client, the Athena client, terminal
geometry) are modelled as explicit inputs: the inventory is the list of
function ARNs the Lambda client would return, and each Athena interaction is
an `EngineResp` holding the execution id returned at submission, the
sequence of states successive `get_query_execution` calls report, and the
row set `get_query_results` would return.  Observable actions (submitting a
statement, polling a status, fetching results) are recorded as events so
that ordering/short-circuit claims can be stated.

Strings are Lean `String`s; Python string comparison and `str.lower` are
modelled on the code-point level (`Char.toLower` lowercases exactly ASCII
letters, which matches Python on the ARN identifiers this program handles).
Python integers are `Int` where subtraction occurs, `Nat` for counts.
-/

/-- Status of one Athena query poll, as `run_query` classifies the polled
state string; `exhausted` marks the point where the supplied oracle of poll
answers runs out, i.e. where the unbounded Python `while` loop would keep
polling forever. -/
inductive PollOutcome where
  | succeeded
  | failed
  | exhausted
deriving DecidableEq, Repr

/-- Observable external actions of the program, in program order:
`submitted q` is `start_query_execution(QueryString=q)`, `polled i` is
`get_query_execution(QueryExecutionId=i)`, `fetched i` is
`get_query_results(QueryExecutionId=i)`, and `builtQueries` marks the call
of `build_query_strings` in `main`. -/
inductive Event where
  | builtQueries (q1 q2 q3 : String)
  | submitted (sql : String)
  | polled (qid : String)
  | fetched (qid : String)
deriving DecidableEq, Repr

/-- Engine side of one `run_query` call: the `QueryExecutionId` returned by
`start_query_execution`, the `Status.State` strings returned by successive
`get_query_execution` calls, and the `ResultSet.Rows` that
`get_query_results` returns.  A row is the list of `VarCharValue` cells of
its `Data` field. -/
structure EngineResp where
  qid : String
  statuses : List String
  rows : List (List String)

/-- `response['QueryExecutionId'].lstrip('ID')` from line 50 of the source:
Python `lstrip('ID')` removes the longest leading run of characters drawn
from the set containing `I` and `D`. -/
def lstripID (s : String) : String :=
  String.mk (s.data.dropWhile (fun c => c == 'I' || c == 'D'))

/-- `retrieve_function_arns` (lines 16-35): collects the `FunctionArn` of
every function in the client's `list_functions()` response (modelled as the
input list), sets `retrieve_function_arns.count` to their number, and on an
empty inventory calls `sys.exit()` — which raises `SystemExit(None)`, i.e.
process exit status `0`.  `Except.error c` models the process exiting with
status `c`; `Except.ok` returns the ARN list. -/
def retrieve_function_arns (functions : List String) : Except Nat (List String) :=
  if functions.length = 0 then Except.error 0 else Except.ok functions

/-- The `.count` attribute `retrieve_function_arns` leaves on itself:
the number of functions in the inventory response. -/
def retrieve_function_arns_count (functions : List String) : Nat :=
  functions.length

/-- `str(function_arns)[1:-1]` from line 69: Python renders the list as
`['a', 'b']` and the slice strips the brackets, leaving each identifier
single-quoted, separated by `, `.  (Python `repr` would quote differently
for identifiers that themselves contain quote characters; ARNs do not.) -/
def function_arns_csv (arns : List String) : String :=
  String.intercalate ", " (arns.map (fun a => "\x27" ++ a ++ "\x27"))

/-- `build_query_strings` (lines 66-158): instantiates the three SQL
templates.  `create_table_query_template.format(table_name,
cloudtrail_s3_bucket_name)` fills `{0}` and `{1}`;
`create_partiton_query_template.format(table_name,
cloudtrail_s3_bucket_name, region, year)` fills `{0}`..`{3}`;
`last_run_query_template.format(table_name, year,
function_arns=function_arns_csv)` fills `{0}`, `{1}` and `{function_arns}`.
The literals below reproduce the templates of the source byte for byte,
with each placeholder replaced by the spliced argument. -/
def build_query_strings (function_arns : List String)
    (table_name cloudtrail_s3_bucket_name year region : String) :
    String × String × String :=
  let create_table_query :=
    "CREATE EXTERNAL TABLE " ++ table_name ++
    " (\n            eventversion STRING,\n            userIdentity STRUCT<\n            type:STRING,\n            principalid:STRING,\n            arn:STRING,\n            accountid:STRING,\n            invokedby:STRING,\n            accesskeyid:STRING,\n            userName:STRING,\n            sessioncontext:STRUCT<\n                attributes:STRUCT<\n                mfaauthenticated:STRING,\n                creationdate:STRING>,\n                sessionIssuer:STRUCT<\n                type:STRING,\n                principalId:STRING,\n                arn:STRING,\n                accountId:STRING,\n                userName:STRING>>>,\n            eventTime STRING,\n            eventSource STRING,\n            eventName STRING,\n            awsRegion STRING,\n            sourceIpAddress STRING,\n            userAgent STRING,\n            errorCode STRING,\n            errorMessage STRING,\n            requestParameters STRING,\n            responseElements STRING,\n            additionalEventData STRING,\n            requestId STRING,\n            eventId STRING,\n            resources ARRAY<STRUCT<\n            ARN:STRING,accountId:\n            STRING,type:STRING>>,\n            eventType STRING,\n            apiVersion STRING,\n            readOnly STRING,\n            recipientAccountId STRING,\n            serviceEventDetails STRING,\n            sharedEventID STRING,\n            vpcEndpointId STRING\n            )\n            PARTITIONED BY(year string)\n            ROW FORMAT SERDE \x27com.amazon.emr.hive.serde.CloudTrailSerde\x27\n            STORED AS INPUTFORMAT \x27com.amazon.emr.cloudtrail.CloudTrailInputFormat\x27\n            OUTPUTFORMAT \x27org.apache.hadoop.hive.ql.io.HiveIgnoreKeyTextOutputFormat\x27\n            LOCATION \x27" ++
    cloudtrail_s3_bucket_name ++ "\x27;"
  let create_partition_query :=
    "\n    ALTER TABLE " ++ table_name ++ " add partition (year=\"" ++ year ++
    "\")\n    location \x27" ++ cloudtrail_s3_bucket_name ++ "/CloudTrail/" ++
    region ++ "/" ++ year ++ "/\x27"
  let last_run_query :=
    "\n    select json_extract_scalar(requestparameters, \x27$.functionName\x27) as function_name, Max (eventtime) as \"Last Run\"\n    from " ++
    table_name ++
    "\n    where eventname=\x27Invoke\x27\n    and year=\x27" ++ year ++
    "\x27\n    and from_iso8601_timestamp(eventtime) > current_timestamp - interval \x271\x27 month\n    and json_extract_scalar(requestparameters, \x27$.functionName\x27) in (" ++
    function_arns_csv function_arns ++
    ")\n    group by json_extract_scalar(requestparameters, \x27$.functionName\x27)"
  (create_table_query, create_partition_query, last_run_query)

/-- The polling `while` loop of `run_query` (lines 47-59), driven by the
oracle list of state strings.  The loop polls (recording the polled id),
returns immediately on `FAILED`, leaves the loop once the last polled state
is `SUCCEEDED`, and otherwise sleeps and polls again; an exhausted oracle
corresponds to the loop still running. -/
def poll_loop (pollId : String) : List String → List Event × PollOutcome
  | [] => ([], PollOutcome.exhausted)
  | s :: rest =>
    if s = "FAILED" then ([Event.polled pollId], PollOutcome.failed)
    else if s = "SUCCEEDED" then ([Event.polled pollId], PollOutcome.succeeded)
    else (Event.polled pollId :: (poll_loop pollId rest).1, (poll_loop pollId rest).2)

/-- `run_query` (lines 38-63): submits the statement, polls
`get_query_execution` with the execution id stripped of leading `I`/`D`
characters until the state is terminal, and on success fetches the results
with the original (unstripped) id.  On `FAILED` it prints a message and
returns `None` (modelled as `none`); an exhausted status oracle leaves the
loop running forever. -/
def run_query (query : String) (resp : EngineResp) :
    List Event × PollOutcome × Option (List (List String)) :=
  match (poll_loop (lstripID resp.qid) resp.statuses).2 with
  | PollOutcome.succeeded =>
      (Event.submitted query :: (poll_loop (lstripID resp.qid) resp.statuses).1
        ++ [Event.fetched resp.qid], PollOutcome.succeeded, some resp.rows)
  | PollOutcome.failed =>
      (Event.submitted query :: (poll_loop (lstripID resp.qid) resp.statuses).1,
        PollOutcome.failed, none)
  | PollOutcome.exhausted =>
      (Event.submitted query :: (poll_loop (lstripID resp.qid) resp.statuses).1,
        PollOutcome.exhausted, none)

/-- Terminal behaviour of polling one engine response. -/
def pollOut (resp : EngineResp) : PollOutcome :=
  (poll_loop (lstripID resp.qid) resp.statuses).2

/-- Column 0 of every row after the header: `row['Data'][0]['VarCharValue']`
for `row in result_set[1:]` (lines 164-167).  Rows are modelled by their
list of `VarCharValue` cells; the rows this program consumes always carry a
column 0, so `headD` never falls back to its default on the inputs of the
theorems below. -/
def extract_col0 (result_set : List (List String)) : List String :=
  (result_set.drop 1).map (fun row => row.headD "")

/-- The `.count` attribute of `get_set_of_function_arns_from_result_set`:
one increment per non-header row (lines 163-165). -/
def used_row_count (result_set : List (List String)) : Nat :=
  (result_set.drop 1).length

/-- `get_set_of_function_arns_from_result_set` (lines 161-168): accumulates
column 0 of every non-header row into a Python set; modelled as the
duplicate-free list of those values (membership is all that the program
observes of the set). -/
def get_set_of_function_arns_from_result_set (result_set : List (List String)) :
    List String :=
  (extract_col0 result_set).dedup

/-- Python `str.lower` on the code points of the string (ASCII lowercasing,
which agrees with Python on ARN identifiers). -/
def py_str_lower (s : String) : String :=
  String.mk (s.data.map Char.toLower)

/-- Lexicographic code-point comparison of two character lists, the order
Python uses to compare the sort keys produced by `key=str.lower`. -/
def charListLe : List Char → List Char → Bool
  | [], _ => true
  | _ :: _, [] => false
  | a :: as, b :: bs => if a < b then true else if b < a then false else charListLe as bs

/-- The comparison realised by `difference_list.sort(key=str.lower)`
(line 389): compare the lowercased forms lexicographically. -/
def py_lower_le (a b : String) : Bool :=
  charListLe (py_str_lower a).data (py_str_lower b).data

/-- `unusedcount` (lines 378-379): the arithmetic difference of the two
function-attribute counters, `retrieve_function_arns.count -
get_set_of_function_arns_from_result_set.count`.  Python subtraction may go
negative, hence `Int`. -/
def unused_count (function_arns : List String) (result_set : List (List String)) : Int :=
  (retrieve_function_arns_count function_arns : Int) - (used_row_count result_set : Int)

/-- `list(set(function_arns) - set_of_functions_used)` followed by
`difference_list.sort(key=str.lower)` (lines 387-389): the members of the
inventory that are not in the used set, sorted by their lowercase form.
(Among elements with equal lowercase keys Python's order depends on the
unspecified iteration order of the intermediate set, so any sort by
`py_lower_le` models the code; `insertionSort` is the one used here.) -/
def difference_list (function_arns used : List String) : List String :=
  List.insertionSort (fun a b => py_lower_le a b = true)
    ((function_arns.dedup).filter (fun a => decide (a ∉ used)))

/-- The Inventory Differ: everything `main` derives from the inventory and
the final result set (lines 369-393) — the reported total
(`retrieve_function_arns.count`), the reported `unusedcount`, and the
reported sorted `difference_list`. -/
def inventory_differ (function_arns : List String) (result_set : List (List String)) :
    Nat × Int × List String :=
  (retrieve_function_arns_count function_arns,
   unused_count function_arns result_set,
   difference_list function_arns (get_set_of_function_arns_from_result_set result_set))

/-- The size of the true set difference `|I - U|` (inventory minus the
identifiers extracted from the result rows), stated from the spec's words
for comparison with the arithmetic `unused_count` of the code. -/
def true_set_difference_card (function_arns : List String)
    (result_set : List (List String)) : Nat :=
  (function_arns.toFinset \ (extract_col0 result_set).toFinset).card

/-- Environment of one `main` run: the inventory the Lambda client returns,
the command-line arguments the queries are built from, and the engine's
behaviour for each of the three submitted statements, in order. -/
structure Env where
  functions : List String
  table_name : String
  cloudtrail_s3_bucket_name : String
  year : String
  region : String
  resp1 : EngineResp
  resp2 : EngineResp
  resp3 : EngineResp

/-- How one run of `main` ends: `exited c` is a `sys.exit` with process
status `c`; `hang` is the unbounded polling loop never reaching a terminal
state; `typeError` is the uncaught `TypeError` of subscripting the `None`
returned by a failed final query (line 369); `report` carries the printed
total, `unusedcount` and sorted unused list. -/
inductive Outcome where
  | exited (code : Nat)
  | hang
  | typeError
  | report (total : Nat) (unusedCount : Int) (unusedList : List String)
deriving DecidableEq, Repr

/-- The statement-execution and reporting tail of `main` (lines 357-393),
given the three `run_query` outcomes.  The list comprehension of line 358
runs `run_query` for every query in order (a statement is reached only if
no earlier poll loops forever); `query_results[-1]['ResultSet']['Rows']`
then subscripts the result of the last query unconditionally. -/
def run_queries_and_report (built : Event)
    (r1 r2 r3 : List Event × PollOutcome × Option (List (List String)))
    (function_arns : List String) : List Event × Outcome :=
  if r1.2.1 = PollOutcome.exhausted then (built :: r1.1, Outcome.hang)
  else if r2.2.1 = PollOutcome.exhausted then (built :: r1.1 ++ r2.1, Outcome.hang)
  else if r3.2.1 = PollOutcome.exhausted then (built :: r1.1 ++ r2.1 ++ r3.1, Outcome.hang)
  else
    match r3.2.2 with
    | none => (built :: r1.1 ++ r2.1 ++ r3.1, Outcome.typeError)
    | some rows =>
        (built :: r1.1 ++ r2.1 ++ r3.1,
         Outcome.report (inventory_differ function_arns rows).1
           (inventory_differ function_arns rows).2.1
           (inventory_differ function_arns rows).2.2)

/-- The core control flow of `main` (lines 347-393), after the CLI/version
shell: fetch the inventory (exiting on an empty one), build the three
statements, run them in order through `run_query`, and report. -/
def main_run (env : Env) : List Event × Outcome :=
  match retrieve_function_arns env.functions with
  | Except.error code => ([], Outcome.exited code)
  | Except.ok function_arns =>
      run_queries_and_report
        (Event.builtQueries
          (build_query_strings function_arns env.table_name
            env.cloudtrail_s3_bucket_name env.year env.region).1
          (build_query_strings function_arns env.table_name
            env.cloudtrail_s3_bucket_name env.year env.region).2.1
          (build_query_strings function_arns env.table_name
            env.cloudtrail_s3_bucket_name env.year env.region).2.2)
        (run_query (build_query_strings function_arns env.table_name
            env.cloudtrail_s3_bucket_name env.year env.region).1 env.resp1)
        (run_query (build_query_strings function_arns env.table_name
            env.cloudtrail_s3_bucket_name env.year env.region).2.1 env.resp2)
        (run_query (build_query_strings function_arns env.table_name
            env.cloudtrail_s3_bucket_name env.year env.region).2.2 env.resp3)
        function_arns

/-- Recogniser for submission events. -/
def isSubmit : Event → Bool
  | Event.submitted _ => true
  | _ => false

/-! ### Helper lemmas -/

/-- The queries `main` builds for a given environment. -/
def queries_of (env : Env) : String × String × String :=
  build_query_strings env.functions env.table_name env.cloudtrail_s3_bucket_name
    env.year env.region

lemma length_dropWhile_le {α : Type} (p : α → Bool) (l : List α) :
    (l.dropWhile p).length ≤ l.length := by
  induction l with
  | nil => simp [List.dropWhile]
  | cons a l ih =>
    rw [List.dropWhile_cons]
    by_cases h : p a = true
    · rw [if_pos h]; exact Nat.le_trans ih (Nat.le_succ _)
    · rw [if_neg h]

lemma length_filter_partition {α : Type} (l : List α) (p : α → Prop) [DecidablePred p] :
    (l.filter (fun a => decide (p a))).length
      + (l.filter (fun a => decide (¬ p a))).length = l.length := by
  induction l with
  | nil => rfl
  | cons a l ih =>
    rw [List.filter_cons, List.filter_cons]
    by_cases h : p a
    · have hd1 : decide (p a) = true := decide_eq_true h
      have hd2 : decide (¬ p a) = true → False := by
        intro hcontra
        exact absurd (of_decide_eq_true hcontra) (not_not_intro h)
      rw [if_pos hd1, if_neg hd2]
      simp only [List.length_cons]
      omega
    · have hd1 : decide (p a) = true → False := by
        intro hcontra
        exact absurd (of_decide_eq_true hcontra) h
      have hd2 : decide (¬ p a) = true := decide_eq_true h
      rw [if_neg hd1, if_pos hd2]
      simp only [List.length_cons]
      omega

lemma charListLe_total (as : List Char) :
    ∀ bs, charListLe as bs = true ∨ charListLe bs as = true := by
  induction as with
  | nil => intro bs; left; rfl
  | cons a as ih =>
    intro bs
    cases bs with
    | nil => right; rfl
    | cons b bs =>
      rcases lt_trichotomy a b with h | h | h
      · left; simp [charListLe, h]
      · subst h
        rcases ih bs with h' | h'
        · left; simp [charListLe, lt_irrefl, h']
        · right; simp [charListLe, lt_irrefl, h']
      · right; simp [charListLe, h]

lemma charListLe_trans :
    ∀ (as bs cs : List Char), charListLe as bs = true → charListLe bs cs = true →
      charListLe as cs = true := by
  intro as
  induction as with
  | nil => intro bs cs _ _; rfl
  | cons a as ih =>
    intro bs cs hab hbc
    cases bs with
    | nil => simp [charListLe] at hab
    | cons b bs =>
      cases cs with
      | nil => simp [charListLe] at hbc
      | cons c cs =>
        simp only [charListLe] at hab hbc ⊢
        rcases lt_trichotomy a b with h1 | h1 | h1
        · rcases lt_trichotomy b c with h2 | h2 | h2
          · have h3 : a < c := lt_trans h1 h2
            simp [h3]
          · subst h2; simp [h1]
          · rw [if_neg (lt_asymm h2), if_pos h2] at hbc
            exact absurd hbc (by simp)
        · subst h1
          rw [if_neg (lt_irrefl a), if_neg (lt_irrefl a)] at hab
          rcases lt_trichotomy a c with h2 | h2 | h2
          · simp [h2]
          · subst h2
            rw [if_neg (lt_irrefl a), if_neg (lt_irrefl a)] at hbc ⊢
            exact ih bs cs hab hbc
          · rw [if_neg (lt_asymm h2), if_pos h2] at hbc
            exact absurd hbc (by simp)
        · rw [if_neg (lt_asymm h1), if_pos h1] at hab
          exact absurd hab (by simp)

lemma py_lower_le_total (a b : String) :
    py_lower_le a b = true ∨ py_lower_le b a = true :=
  charListLe_total _ _

lemma py_lower_le_trans (a b c : String) :
    py_lower_le a b = true → py_lower_le b c = true → py_lower_le a c = true :=
  charListLe_trans _ _ _

lemma mem_difference_list (fas used : List String) (x : String) :
    x ∈ difference_list fas used ↔ x ∈ fas ∧ x ∉ used := by
  unfold difference_list
  rw [List.mem_insertionSort, List.mem_filter, List.mem_dedup]
  simp

lemma nodup_difference_list (fas used : List String) :
    (difference_list fas used).Nodup := by
  unfold difference_list
  exact (List.perm_insertionSort _ _).nodup_iff.mpr ((List.nodup_dedup fas).filter _)

lemma sorted_difference_list (fas used : List String) :
    (difference_list fas used).Pairwise (fun a b => py_lower_le a b = true) := by
  unfold difference_list
  exact @List.sorted_insertionSort String (fun a b => py_lower_le a b = true) _
    ⟨py_lower_le_total⟩ ⟨py_lower_le_trans⟩ _

lemma difference_list_length_of_subset (fas used : List String)
    (hfas : fas.Nodup) (hused : used.Nodup) (hsub : ∀ u ∈ used, u ∈ fas) :
    (difference_list fas used).length + used.length = fas.length := by
  unfold difference_list
  rw [(List.perm_insertionSort _ _).length_eq]
  rw [List.dedup_eq_self.mpr hfas]
  have hpart := length_filter_partition fas (fun a => a ∈ used)
  have hlen : (fas.filter (fun a => decide (a ∈ used))).length = used.length := by
    have hperm : (fas.filter (fun a => decide (a ∈ used))).Perm used := by
      apply List.perm_of_nodup_nodup_toFinset_eq (hfas.filter _) hused
      ext x
      simp only [List.mem_toFinset, List.mem_filter, decide_eq_true_eq]
      exact ⟨fun h => h.2, fun h => ⟨hsub x h, h⟩⟩
    exact hperm.length_eq
  omega

lemma poll_loop_events (pid : String) (sts : List String) :
    ∀ e ∈ (poll_loop pid sts).1, e = Event.polled pid := by
  induction sts with
  | nil => intro e he; simp [poll_loop] at he
  | cons s rest ih =>
    intro e he
    by_cases h1 : s = "FAILED"
    · simp [poll_loop, h1] at he; simp [he]
    · by_cases h2 : s = "SUCCEEDED"
      · simp [poll_loop, h1, h2] at he; simp [he]
      · simp [poll_loop, h1, h2] at he
        rcases he with he | he
        · simp [he]
        · exact ih e he

lemma run_query_pollOutcome (q : String) (r : EngineResp) :
    (run_query q r).2.1 = pollOut r := by
  unfold pollOut
  cases h : (poll_loop (lstripID r.qid) r.statuses).2 <;> simp [run_query, h]

lemma run_query_result_failed (q : String) (r : EngineResp)
    (h : pollOut r = PollOutcome.failed) :
    (run_query q r).2.2 = none := by
  unfold pollOut at h
  simp [run_query, h]

lemma run_query_filter_submit (q : String) (r : EngineResp) :
    (run_query q r).1.filter isSubmit = [Event.submitted q] := by
  have hp : (poll_loop (lstripID r.qid) r.statuses).1.filter isSubmit = [] :=
    List.filter_eq_nil_iff.mpr
      (fun e he => by rw [poll_loop_events _ _ e he]; simp [isSubmit])
  cases h : (poll_loop (lstripID r.qid) r.statuses).2 <;>
    simp [run_query, h, List.filter_cons, List.filter_append, hp, isSubmit]

lemma retrieve_ok (l : List String) (h : l ≠ []) :
    retrieve_function_arns l = Except.ok l := by
  unfold retrieve_function_arns
  rw [if_neg (fun hh => h (List.length_eq_zero.mp hh))]

lemma main_run_ok (env : Env) (hne : env.functions ≠ []) :
    main_run env =
      run_queries_and_report
        (Event.builtQueries (queries_of env).1 (queries_of env).2.1 (queries_of env).2.2)
        (run_query (queries_of env).1 env.resp1)
        (run_query (queries_of env).2.1 env.resp2)
        (run_query (queries_of env).2.2 env.resp3)
        env.functions := by
  unfold main_run
  rw [retrieve_ok env.functions hne]
  rfl

lemma run_queries_and_report_trace (built : Event)
    (r1 r2 r3 : List Event × PollOutcome × Option (List (List String)))
    (fas : List String)
    (h1 : r1.2.1 ≠ PollOutcome.exhausted) (h2 : r2.2.1 ≠ PollOutcome.exhausted) :
    (run_queries_and_report built r1 r2 r3 fas).1 = built :: r1.1 ++ r2.1 ++ r3.1 := by
  unfold run_queries_and_report
  rw [if_neg h1, if_neg h2]
  by_cases h3 : r3.2.1 = PollOutcome.exhausted
  · rw [if_pos h3]
  · rw [if_neg h3]
    cases hr : r3.2.2 <;> simp [hr]

lemma run_query_polled (q : String) (resp : EngineResp) :
    ∀ e ∈ (run_query q resp).1, (∃ pid, e = Event.polled pid) →
      e = Event.polled (lstripID resp.qid) := by
  intro e he hp
  obtain ⟨pid, rfl⟩ := hp
  have hpl := poll_loop_events (lstripID resp.qid) resp.statuses
  cases h : (poll_loop (lstripID resp.qid) resp.statuses).2 <;>
    simp [run_query, h] at he <;> exact hpl _ he

lemma lstripID_eq_iff (s : String) :
    lstripID s = s ↔ ¬(s.data.head? = some 'I' ∨ s.data.head? = some 'D') := by
  obtain ⟨l⟩ := s
  cases l with
  | nil => simp [lstripID]
  | cons c cs =>
    by_cases hc : (c == 'I' || c == 'D') = true
    · have hc' : c = 'I' ∨ c = 'D' := by simpa using hc
      apply iff_of_false
      · intro h
        have hdata : (lstripID (String.mk (c :: cs))).data = c :: cs := by rw [h]
        simp only [lstripID, List.dropWhile_cons, hc, if_true] at hdata
        have hle := length_dropWhile_le (fun c => c == 'I' || c == 'D') cs
        rw [hdata] at hle
        simp at hle
      · intro hK
        apply hK
        rcases hc' with rfl | rfl
        · exact Or.inl rfl
        · exact Or.inr rfl
    · have hc' : ¬(c = 'I' ∨ c = 'D') := by
        intro h
        apply hc
        rcases h with rfl | rfl
        · simp
        · simp
      apply iff_of_true
      · show String.mk (List.dropWhile _ (c :: cs)) = String.mk (c :: cs)
        rw [List.dropWhile_cons, if_neg (by simpa using hc)]
      · simpa using hc'

/-! ### Concrete environments used by counterexamples and witnesses -/

/-- Environment whose inventory fetch returns no functions. -/
def envEmpty : Env :=
  { functions := [], table_name := "cloudtrail_lambda_logs",
    cloudtrail_s3_bucket_name := "s3://ct-bucket", year := "2023",
    region := "us-east-1",
    resp1 := ⟨"", [], []⟩, resp2 := ⟨"", [], []⟩, resp3 := ⟨"", [], []⟩ }

/-- Environment where the first statement's job reports `FAILED` on its
first poll and the later statements would succeed. -/
def envFailFirst : Env :=
  { functions := ["f1"], table_name := "cloudtrail_lambda_logs",
    cloudtrail_s3_bucket_name := "s3://ct-bucket", year := "2023",
    region := "us-east-1",
    resp1 := ⟨"q1", ["FAILED"], []⟩,
    resp2 := ⟨"q2", ["SUCCEEDED"], []⟩,
    resp3 := ⟨"q3", ["SUCCEEDED"], [["function_name"], ["f1"]]⟩ }

/-- Environment where the final (usage) query's job reports `FAILED`. -/
def envFailLast : Env :=
  { functions := ["f1"], table_name := "cloudtrail_lambda_logs",
    cloudtrail_s3_bucket_name := "s3://ct-bucket", year := "2023",
    region := "us-east-1",
    resp1 := ⟨"q1", ["SUCCEEDED"], [["h"]]⟩,
    resp2 := ⟨"q2", ["SUCCEEDED"], [["h"]]⟩,
    resp3 := ⟨"q3", ["RUNNING", "FAILED"], []⟩ }

/-! ### Claims -/

/-- C1 (counterexample): with inventory `I = ["a"]` and result rows
`[["hdr"], ["a"], ["a"]]` the extracted identifier set `U = setof "a"` is a
subset of `I`, yet the reported unused count (`1 - 2 = -1`, the arithmetic
difference of the inventory count and the *row* count) differs from the
size of the reported unused list (`0`); the claim's equation between the
reported count and the reported list's size fails even under `U ⊆ I`. -/
theorem C1_set_difference_counterexample :
    (∀ u ∈ extract_col0 [["hdr"], ["a"], ["a"]], u ∈ (["a"] : List String)) ∧
    (inventory_differ ["a"] [["hdr"], ["a"], ["a"]]).2.1 ≠
      ((inventory_differ ["a"] [["hdr"], ["a"], ["a"]]).2.2.length : Int) := by
  constructor
  · decide
  · decide

/-- C1 (amended): for every inventory list without duplicate identifiers
and every result set whose non-header rows extract pairwise-distinct
identifiers forming a subset of the inventory, the reported unused list has
exactly the members of the set difference I - U, without duplicates, in
case-insensitively ascending order, the reported total is the inventory
size, and the reported unused count equals the size of that list. -/
theorem C1_set_difference_amended (I : List String) (rs : List (List String))
    (hI : I.Nodup) (hU : (extract_col0 rs).Nodup)
    (hsub : ∀ u ∈ extract_col0 rs, u ∈ I) :
    (inventory_differ I rs).1 = I.length ∧
    (inventory_differ I rs).2.1 = ((inventory_differ I rs).2.2.length : Int) ∧
    (inventory_differ I rs).2.2.Nodup ∧
    (∀ x, x ∈ (inventory_differ I rs).2.2 ↔ x ∈ I ∧ x ∉ extract_col0 rs) ∧
    (inventory_differ I rs).2.2.Pairwise (fun a b => py_lower_le a b = true) := by
  have hget : get_set_of_function_arns_from_result_set rs = extract_col0 rs := by
    unfold get_set_of_function_arns_from_result_set
    exact List.dedup_eq_self.mpr hU
  have hproj2 : (inventory_differ I rs).2.2 = difference_list I (extract_col0 rs) := by
    unfold inventory_differ
    rw [hget]
  refine ⟨rfl, ?_, ?_, ?_, ?_⟩
  · show unused_count I rs = _
    rw [hproj2]
    unfold unused_count retrieve_function_arns_count used_row_count
    have hrows : (rs.drop 1).length = (extract_col0 rs).length := by
      unfold extract_col0
      rw [List.length_map]
    have hlen := difference_list_length_of_subset I (extract_col0 rs) hI hU hsub
    omega
  · rw [hproj2]
    exact nodup_difference_list _ _
  · intro x
    rw [hproj2]
    exact mem_difference_list _ _ _
  · rw [hproj2]
    exact sorted_difference_list _ _

/-- C1 (witness): the amended statement at inventory `["A", "b", "C"]` and
result rows `[["hdr"], ["A"]]` (the spec's own scenario: unused `["b", "C"]`
case-insensitively sorted, count `2`). -/
theorem C1_set_difference_amended_witness :
    (inventory_differ ["A", "b", "C"] [["hdr"], ["A"]]).1
        = (["A", "b", "C"] : List String).length ∧
    (inventory_differ ["A", "b", "C"] [["hdr"], ["A"]]).2.1
        = ((inventory_differ ["A", "b", "C"] [["hdr"], ["A"]]).2.2.length : Int) ∧
    (inventory_differ ["A", "b", "C"] [["hdr"], ["A"]]).2.2.Nodup ∧
    (∀ x, x ∈ (inventory_differ ["A", "b", "C"] [["hdr"], ["A"]]).2.2 ↔
        x ∈ (["A", "b", "C"] : List String) ∧ x ∉ extract_col0 [["hdr"], ["A"]]) ∧
    (inventory_differ ["A", "b", "C"] [["hdr"], ["A"]]).2.2.Pairwise
        (fun a b => py_lower_le a b = true) :=
  C1_set_difference_amended ["A", "b", "C"] [["hdr"], ["A"]]
    (by decide) (by decide) (by decide)

/-- C2: there are an inventory and a result set whose extracted identifiers
are not all in the inventory, for which the reported unused count (the
arithmetic difference of counts) differs from the true set-difference size
`card (I \ U)`. -/
theorem C2_arithmetic_count_divergence :
    ∃ (I : List String) (rs : List (List String)),
      (∃ u ∈ extract_col0 rs, u ∉ I) ∧
      (inventory_differ I rs).2.1 ≠ (true_set_difference_card I rs : Int) := by
  refine ⟨["A"], [["h"], ["B"]], ?_, ?_⟩
  · decide
  · decide

/-- C3 (counterexample): in `envFailFirst` the first statement's job
reports `FAILED` on its first poll, yet three submission events occur —
the second and third statements are still submitted to the engine, so the
run is not aborted after the failure. -/
theorem C3_failed_short_circuit_counterexample :
    pollOut envFailFirst.resp1 = PollOutcome.failed ∧
    ((main_run envFailFirst).1.filter isSubmit).length = 3 := by
  constructor
  · rfl
  · rfl

/-- C3 (amended): a statement whose job reports `FAILED` stops its own
polling and yields no result (`None`), but the run is not aborted: as long
as the polling of the earlier statements terminates, all three statements
of the sequence are submitted to the engine regardless of any `FAILED`
status. -/
theorem C3_failed_short_circuit_amended (env : Env) (hne : env.functions ≠ [])
    (h1 : pollOut env.resp1 ≠ PollOutcome.exhausted)
    (h2 : pollOut env.resp2 ≠ PollOutcome.exhausted) :
    ((main_run env).1.filter isSubmit).length = 3 ∧
    ∀ q r, pollOut r = PollOutcome.failed → (run_query q r).2.2 = none := by
  refine ⟨?_, fun q r h => run_query_result_failed q r h⟩
  rw [main_run_ok env hne]
  rw [run_queries_and_report_trace _ _ _ _ _
    (by rw [run_query_pollOutcome]; exact h1)
    (by rw [run_query_pollOutcome]; exact h2)]
  simp [List.filter_cons, List.filter_append, run_query_filter_submit, isSubmit]

/-- C3 (witness): the amended statement in `envFailFirst`, whose first
statement fails. -/
theorem C3_failed_short_circuit_amended_witness :
    ((main_run envFailFirst).1.filter isSubmit).length = 3 ∧
    ∀ q r, pollOut r = PollOutcome.failed → (run_query q r).2.2 = none :=
  C3_failed_short_circuit_amended envFailFirst (by decide) (by decide) (by decide)

/-- C4 (counterexample): on an empty inventory the run terminates via
`sys.exit()`, whose process exit status is `0` — not a non-zero exit code
as the claim states. -/
theorem C4_empty_inventory_exit_code_counterexample :
    main_run envEmpty = ([], Outcome.exited 0) ∧
    ∀ c, (main_run envEmpty).2 = Outcome.exited c → c = 0 := by
  constructor
  · rfl
  · intro c h
    have h0 : (main_run envEmpty).2 = Outcome.exited 0 := rfl
    rw [h0] at h
    exact (Outcome.exited.inj h).symm

/-- C4 (amended): whenever the inventory fetch returns an empty list of
function identifiers, the process terminates immediately — but with exit
code `0` (the argument-less `sys.exit()`), not a non-zero code. -/
theorem C4_empty_inventory_exit_code_amended (env : Env) (h : env.functions = []) :
    main_run env = ([], Outcome.exited 0) := by
  unfold main_run retrieve_function_arns
  rw [h]
  rfl

/-- C4 (witness): the amended statement in the concrete empty-inventory
environment. -/
theorem C4_empty_inventory_exit_code_amended_witness :
    main_run envEmpty = ([], Outcome.exited 0) :=
  C4_empty_inventory_exit_code_amended envEmpty rfl

/-- C5: if the inventory fetch returns zero identifiers, the run terminates
at once with no recorded event at all — in particular no SQL statement is
built (`builtQueries` event) and none is submitted (`submitted` event)
before the exit. -/
theorem C5_empty_inventory_no_submission (env : Env) (h : env.functions = []) :
    (main_run env).1 = [] ∧ (main_run env).2 = Outcome.exited 0 := by
  unfold main_run retrieve_function_arns
  rw [h]
  exact ⟨rfl, rfl⟩

/-- C5 (witness): the statement in the concrete empty-inventory
environment. -/
theorem C5_empty_inventory_no_submission_witness :
    (main_run envEmpty).1 = [] ∧ (main_run envEmpty).2 = Outcome.exited 0 :=
  C5_empty_inventory_no_submission envEmpty rfl

/-- C6: for a job whose successive polls report RUNNING, RUNNING,
SUCCEEDED, the executor's event trace is exactly one submission, three
status polls and then — only after the third poll — one result fetch, and
it returns the engine's row set. -/
theorem C6_three_polls_then_fetch (q qid : String) (rows : List (List String)) :
    run_query q ⟨qid, ["RUNNING", "RUNNING", "SUCCEEDED"], rows⟩ =
      ([Event.submitted q, Event.polled (lstripID qid), Event.polled (lstripID qid),
        Event.polled (lstripID qid), Event.fetched qid],
       PollOutcome.succeeded, some rows) := rfl

/-- C7: the Query Template Builder is deterministic — two calls with equal
inputs (identifier list, table name, cloudtrail location, year, region)
return equal triples of SQL strings. -/
theorem C7_template_determinism (fas1 fas2 : List String)
    (t1 t2 c1 c2 y1 y2 r1 r2 : String)
    (h : fas1 = fas2 ∧ t1 = t2 ∧ c1 = c2 ∧ y1 = y2 ∧ r1 = r2) :
    build_query_strings fas1 t1 c1 y1 r1 = build_query_strings fas2 t2 c2 y2 r2 := by
  obtain ⟨h1, h2, h3, h4, h5⟩ := h
  rw [h1, h2, h3, h4, h5]

/-- C7 (witness): the determinism statement at one concrete input. -/
theorem C7_template_determinism_witness :
    build_query_strings ["arn:aws:lambda:us-east-1:1:function:f"] "tbl" "s3://ct"
        "2023" "us-east-1" =
      build_query_strings ["arn:aws:lambda:us-east-1:1:function:f"] "tbl" "s3://ct"
        "2023" "us-east-1" :=
  C7_template_determinism _ _ _ _ _ _ _ _ _ _ ⟨rfl, rfl, rfl, rfl, rfl⟩

/-- C8: for every table name, cloudtrail location, region and year, the
second statement produced by the Query Template Builder is the
add-partition statement keyed by the given year, whose location clause is
exactly the cloudtrail location followed by `/CloudTrail/`, the region,
`/`, the year and a trailing `/`. -/
theorem C8_partition_statement_shape (fas : List String)
    (table cloudtrail year region : String) :
    (build_query_strings fas table cloudtrail year region).2.1 =
      "\n    ALTER TABLE " ++ table ++ " add partition (year=\"" ++ year ++
      "\")\n    location \x27" ++ cloudtrail ++ "/CloudTrail/" ++
      region ++ "/" ++ year ++ "/\x27" := rfl

/-- C9: every status poll of `run_query` uses the submission-returned
execution id with all leading `I` and `D` characters stripped, and the
polled id equals the submitted id exactly when the id does not begin with
the character `I` or `D`. -/
theorem C9_poll_id_lstrip (q : String) (resp : EngineResp) :
    (∀ e ∈ (run_query q resp).1, (∃ pid, e = Event.polled pid) →
        e = Event.polled (lstripID resp.qid)) ∧
    (lstripID resp.qid = resp.qid ↔
      ¬(resp.qid.data.head? = some 'I' ∨ resp.qid.data.head? = some 'D')) :=
  ⟨run_query_polled q resp, lstripID_eq_iff resp.qid⟩

/-- C9 (witness): the statement for a concrete query whose execution id
starts with stripped characters. -/
theorem C9_poll_id_lstrip_witness :
    (∀ e ∈ (run_query "q" ⟨"IDq", ["SUCCEEDED"], []⟩).1, (∃ pid, e = Event.polled pid) →
        e = Event.polled (lstripID "IDq")) ∧
    (lstripID "IDq" = "IDq" ↔
      ¬(("IDq" : String).data.head? = some 'I' ∨ ("IDq" : String).data.head? = some 'D')) :=
  C9_poll_id_lstrip "q" ⟨"IDq", ["SUCCEEDED"], []⟩

/-- C10: if the final (usage) query's job reports `FAILED`, `run_query`
returns no result (`none`), and `main` — which subscripts
`query_results[-1]` unconditionally — ends in the uncaught runtime type
error, not in a clean failure exit. -/
theorem C10_failed_final_query_type_error (env : Env) (hne : env.functions ≠ [])
    (h1 : pollOut env.resp1 ≠ PollOutcome.exhausted)
    (h2 : pollOut env.resp2 ≠ PollOutcome.exhausted)
    (hf : pollOut env.resp3 = PollOutcome.failed) :
    (∀ q, (run_query q env.resp3).2.2 = none) ∧
    (main_run env).2 = Outcome.typeError := by
  refine ⟨fun q => run_query_result_failed q env.resp3 hf, ?_⟩
  rw [main_run_ok env hne]
  unfold run_queries_and_report
  rw [run_query_pollOutcome, run_query_pollOutcome, run_query_pollOutcome]
  rw [if_neg h1, if_neg h2, hf]
  rw [if_neg (by simp)]
  rw [run_query_result_failed _ _ hf]

/-- C10 (witness): the statement in `envFailLast`, whose final query
fails after one RUNNING poll. -/
theorem C10_failed_final_query_type_error_witness :
    (∀ q, (run_query q envFailLast.resp3).2.2 = none) ∧
    (main_run envFailLast).2 = Outcome.typeError :=
  C10_failed_final_query_type_error envFailLast (by decide) (by decide) (by decide)
    (by decide)
